import Mathlib

/-!
Shallow embedding of the Spotify OAuth token lifecycle of the
mcp-server-ado repository: the config-file token store
(src/utils/configManager.ts) and the authorization / status-check flow of
the SpotifyService class (src/spotify.ts), together with proofs of the
specified properties.

JSON objects are modelled as ordered association lists (JavaScript objects
preserve insertion order, and assignment to an existing key keeps its
position), the filesystem as an association list from path to file
content.  File content is abstracted to: empty (empty or whitespace-only,
so that JSON.parse fails and the emptiness checks fire), invalid (non-empty
but not valid JSON), or a parsed JSON object.  Machine integers
(Date.now(), expiresAt) are modelled as Int.  Fallible IO steps that the
source guards with try/catch are modelled with an explicit fault-injection
record; JavaScript exceptions are modelled with Except / Option results.
-/

/-- A JSON value as stored in the config document. -/
inductive JVal where
  | str (s : String)
  | num (n : Int)
  | boolean (b : Bool)
  | null
deriving DecidableEq, Repr

/-- A JSON object: ordered key/value pairs, as JavaScript objects are. -/
abbrev Doc := List (String × JVal)

/-- JavaScript truthiness of a possibly-absent JSON value
(used for checks such as `config.clientId && config.clientSecret`). -/
def truthy : Option JVal → Bool
  | none => false
  | some (.str s) => s ≠ ""
  | some (.num n) => n ≠ 0
  | some (.boolean b) => b
  | some .null => false

/-- The string content of a JSON value; token fields written by this
program are always strings, so non-strings are mapped to "". -/
def jstrOf : Option JVal → String
  | some (.str s) => s
  | _ => ""

/-- First-occurrence association-list lookup (JavaScript property read). -/
def getA {α : Type} : List (String × α) → String → Option α
  | [], _ => none
  | (k, v) :: rest, key => if k = key then some v else getA rest key

/-- Association-list update: JavaScript property assignment.  An existing
key keeps its position in the object (hence in the serialized bytes);
a new key is appended at the end. -/
def setA {α : Type} : List (String × α) → String → α → List (String × α)
  | [], key, v => [(key, v)]
  | (k, w) :: rest, key, v =>
    if k = key then (k, v) :: rest else (k, w) :: setA rest key v

/-- Remove the first entry with the given key. -/
def delA {α : Type} : List (String × α) → String → List (String × α)
  | [], _ => []
  | (k, w) :: rest, key => if k = key then rest else (k, w) :: delA rest key

/-- Content of a file, abstracting JSON.parse:
`empty` = empty or whitespace-only content; `invalid` = non-empty content
that is not valid JSON; `obj doc` = valid JSON object with fields `doc`. -/
inductive FileData where
  | empty
  | invalid
  | obj (doc : Doc)
deriving DecidableEq, Repr

/-- The filesystem: path → file content, absent = file does not exist. -/
abbrev Fs := List (String × FileData)

/-- fs.readFileSync (content view). -/
def fsRead (fs : Fs) (p : String) : Option FileData := getA fs p

/-- fs.existsSync. -/
def fsHas (fs : Fs) (p : String) : Bool := (fsRead fs p).isSome

/-- fs.writeFileSync. -/
def fsWrite (fs : Fs) (p : String) (d : FileData) : Fs := setA fs p d

/-- fs.copyFileSync src → dst (call sites guard existence of src with
existsSync, so the missing-source case is unreachable there). -/
def fsCopy (fs : Fs) (src dst : String) : Fs :=
  match fsRead fs src with
  | some d => fsWrite fs dst d
  | none => fs

/-- fs.renameSync src → dst: dst receives src's content, src disappears. -/
def fsRename (fs : Fs) (src dst : String) : Fs :=
  match fsRead fs src with
  | some d => delA (fsWrite fs dst d) src
  | none => fs

/-! ## configManager.ts: paths and config-file search -/

/-- CONFIG_LOCATIONS[0]: path of the active config document
(project-root spotify-config.json; the concrete directory prefix is
irrelevant to the semantics and elided). -/
def configPath : String := "spotify-config.json"

/-- EXAMPLE_CONFIG_PATH, the example/template document. -/
def examplePath : String := "spotify-config.example.json"

/-- The `.bak` sibling used by backup/restore. -/
def backupPath : String := configPath ++ ".bak"

/-- The `.tmp` sibling used by the write-then-rename save. -/
def tempPath : String := configPath ++ ".tmp"

/-- CONFIG_LOCATIONS: the ordered list of candidate config locations
(the source lists exactly one, the project root). -/
def CONFIG_LOCATIONS : List String := [configPath]

/-- findConfigFile: first existing location wins, none if no file exists. -/
def findConfigFile (fs : Fs) : Option String :=
  CONFIG_LOCATIONS.find? (fun p => fsHas fs p)

/-- getConfigFilePath: the found location, else the first candidate. -/
def getConfigFilePath (fs : Fs) : String :=
  match findConfigFile fs with
  | some p => p
  | none => configPath

/-! ## loadSpotifyConfig -/

/-- loadSpotifyConfig: throws (modelled as Except.error) when no config
file exists, when it is empty, when JSON.parse fails, or when one of
clientId / clientSecret / redirectUri is absent or falsy. -/
def loadSpotifyConfig (fs : Fs) : Except String Doc :=
  match findConfigFile fs with
  | none => .error "Spotify configuration file not found."
  | some p =>
    match fsRead fs p with
    | none => .error "read failed"
    | some .empty => .error "Spotify configuration file is empty"
    | some .invalid => .error "Failed to parse Spotify configuration"
    | some (.obj doc) =>
      if truthy (getA doc "clientId") && truthy (getA doc "clientSecret")
          && truthy (getA doc "redirectUri") then
        .ok doc
      else
        .error "Spotify configuration must include clientId, clientSecret, and redirectUri."

/-! ## verifyConfigFileIntegrity and backupConfigFile -/

/-- verifyConfigFileIntegrity: returns the verdict and the (possibly
repaired) filesystem.
* no config file found → false, untouched;
* file empty → restore from example if it exists (true), else false;
* invalid JSON → restore from `.bak` if it exists, else from the example
  if it exists (true in both cases, without re-validating the restored
  content), else false;
* valid JSON → whether clientId, clientSecret and redirectUri are truthy. -/
def verifyConfigFileIntegrity (fs : Fs) : Bool × Fs :=
  match findConfigFile fs with
  | none => (false, fs)
  | some p =>
    match fsRead fs p with
    | none => (false, fs)
    | some .empty =>
      if fsHas fs examplePath then (true, fsCopy fs examplePath p)
      else (false, fs)
    | some .invalid =>
      if fsHas fs (p ++ ".bak") then (true, fsCopy fs (p ++ ".bak") p)
      else if fsHas fs examplePath then (true, fsCopy fs examplePath p)
      else (false, fs)
    | some (.obj doc) =>
      (truthy (getA doc "clientId") && truthy (getA doc "clientSecret")
        && truthy (getA doc "redirectUri"), fs)

/-- backupConfigFile: copy the active config document to its `.bak`
sibling; false when no config file exists. -/
def backupConfigFile (fs : Fs) : Bool × Fs :=
  match findConfigFile fs with
  | none => (false, fs)
  | some p => (true, fsCopy fs p (p ++ ".bak"))

/-! ## saveTokensToConfig -/

/-- The token triple passed to saveTokensToConfig. -/
structure Tokens where
  accessToken : String
  refreshToken : String
  expiresAt : Int
deriving DecidableEq, Repr

/-- JavaScript truthiness of the token fields as validated on entry. -/
def tokensValid (t : Tokens) : Bool :=
  t.accessToken ≠ "" && t.refreshToken ≠ "" && t.expiresAt ≠ 0

/-- Injected IO faults: each flag makes the corresponding fs step of
saveTokensToConfig throw (disk error); parse failures arise from the file
content itself. -/
structure IoFaults where
  readFails : Bool
  writeFails : Bool
  renameFails : Bool
  readbackFails : Bool
deriving DecidableEq, Repr

def noFaults : IoFaults := ⟨false, false, false, false⟩

/-- process.env values read when fabricating a default config
("" models an unset variable, matching the `|| ''` defaults). -/
structure ProcEnv where
  envClientId : String
  envClientSecret : String
  envRedirectUri : String
deriving DecidableEq, Repr

/-- The defaultConfig object written when neither a valid config nor the
example document exists. -/
def defaultConfig (pe : ProcEnv) : Doc :=
  [("clientId", .str pe.envClientId),
   ("clientSecret", .str pe.envClientSecret),
   ("redirectUri",
     .str (if pe.envRedirectUri = "" then "http://localhost:8888/callback"
           else pe.envRedirectUri))]

/-- The catch-block recovery of saveTokensToConfig: copy `.bak` over the
config document when the backup exists. -/
def restoreFromBackup (fs : Fs) : Fs :=
  if fsHas fs backupPath then fsCopy fs backupPath (getConfigFilePath fs)
  else fs

/-- Update the three token fields of a document (property assignment,
preserving positions of existing keys and every other field). -/
def setTokenFields (doc : Doc) (t : Tokens) : Doc :=
  setA (setA (setA doc "accessToken" (.str t.accessToken))
      "refreshToken" (.str t.refreshToken))
    "expiresAt" (.num t.expiresAt)

/-- saveTokensToConfig, also returning the trace of every filesystem
state that became visible during the call (after each mutating step),
so that atomicity of the replace can be stated.  Result: (returned
boolean, final filesystem, visible intermediate states in order). -/
def saveTokensRun (pe : ProcEnv) (faults : IoFaults) (t : Tokens) (fs : Fs) :
    Bool × Fs × List Fs :=
  if ¬ tokensValid t then (false, fs, [])
  else
    -- verifyConfigFileIntegrity first (may itself repair the file)
    let v := verifyConfigFileIntegrity fs
    let isConfigValid := v.1
    let fs1 := v.2
    let p := getConfigFilePath fs1
    -- create from example / default when invalid, else back up
    let fs2 :=
      if ¬ isConfigValid then
        if fsHas fs1 examplePath then fsCopy fs1 examplePath p
        else fsWrite fs1 p (.obj (defaultConfig pe))
      else (backupConfigFile fs1).2
    -- read current config (failure → catch block)
    if faults.readFails then (false, restoreFromBackup fs2, [fs1, fs2, restoreFromBackup fs2])
    else
      match fsRead fs2 p with
      | some (.obj doc) =>
        let doc' := setTokenFields doc t
        -- write the temporary file
        if faults.writeFails then (false, restoreFromBackup fs2, [fs1, fs2, restoreFromBackup fs2])
        else
          let fs3 := fsWrite fs2 tempPath (.obj doc')
          -- rename it into place
          if faults.renameFails then (false, restoreFromBackup fs3, [fs1, fs2, fs3, restoreFromBackup fs3])
          else
            let fs4 := fsRename fs3 tempPath p
            -- read back and verify non-empty
            if faults.readbackFails then (false, restoreFromBackup fs4, [fs1, fs2, fs3, fs4, restoreFromBackup fs4])
            else (true, fs4, [fs1, fs2, fs3, fs4])
      | _ =>
        -- empty file or JSON.parse failure → catch block
        (false, restoreFromBackup fs2, [fs1, fs2, restoreFromBackup fs2])

/-- saveTokensToConfig: returned boolean and final filesystem. -/
def saveTokensToConfig (pe : ProcEnv) (faults : IoFaults) (t : Tokens)
    (fs : Fs) : Bool × Fs :=
  ((saveTokensRun pe faults t fs).1, (saveTokensRun pe faults t fs).2.1)

/-! ## spotify.ts: generateRandomString and getAuthorizationUrl -/

/-- The alphabet used for state tokens. -/
def possible : String :=
  "ABCDEFGHIJKLMNOPQRSTUVWXYZabcdefghijklmnopqrstuvwxyz0123456789"

/-- String.prototype.charAt: the one-character string at the index,
"" when out of range. -/
def charAt (s : String) (i : Nat) : String :=
  match s.toList.get? i with
  | some c => String.singleton c
  | none => ""

/-- generateRandomString: the loop `text += possible.charAt(...)`.
The random draws Math.floor(Math.random() * possible.length) are
abstracted as the sequence `randIdx`; the real computation always
yields an index < 62 since Math.random() < 1. -/
def generateRandomString (randIdx : Nat → Nat) (len : Nat) : String :=
  (List.range len).foldl (fun text i => text ++ charAt possible (randIdx i)) ""

/-- The nine fixed scopes requested by getAuthorizationUrl. -/
def authScopes : List String :=
  ["user-read-playback-state",
   "user-modify-playback-state",
   "user-read-currently-playing",
   "streaming",
   "playlist-read-private",
   "playlist-modify-private",
   "playlist-modify-public",
   "user-read-private",
   "user-top-read"]

/-- The authorization URL at the spotify-web-api-node boundary:
createAuthorizeURL(scopes, state) is third-party library code, modelled
as the record of the scope list and state token it is given. -/
structure AuthorizeURL where
  scopes : List String
  state : String
deriving DecidableEq, Repr

/-- getAuthorizationUrl: throws when no redirect URI is configured
(absent or empty string, the JavaScript falsy check), otherwise returns
the authorization URL built from the nine scopes and a fresh random
16-character state token, together with that state. -/
def getAuthorizationUrl (randIdx : Nat → Nat) (redirectUri : Option String) :
    Except String (AuthorizeURL × String) :=
  match redirectUri with
  | none => .error "Redirect URI is required for Authorization Code flow"
  | some r =>
    if r = "" then .error "Redirect URI is required for Authorization Code flow"
    else
      let state := generateRandomString randIdx 16
      .ok ({ scopes := authScopes, state := state }, state)

/-! ## checkAuthStatus -/

/-- Decidable substring containment (String.prototype.includes). -/
def strContains (s pat : String) : Bool :=
  (List.range (s.toList.length + 1)).any
    (fun i => pat.toList.isPrefixOf (s.toList.drop i))

/-- serverAuthAvailable:
`!!(redirectUri && (redirectUri.includes('localhost') || redirectUri.includes('127.0.0.1')))`. -/
def serverAuthAvail (redirectUri : Option String) : Bool :=
  match redirectUri with
  | none => false
  | some r =>
    if r = "" then false
    else strContains r "localhost" || strContains r "127.0.0.1"

/-- The mutable SpotifyService state touched by the auth flow: the
in-memory access/refresh tokens and the two cache entries
(spotify_refresh_token, spotify_token_expires).  Cache TTLs are not
modelled; a live entry is `some`. -/
structure SvcState where
  accessToken : Option String
  refreshToken : Option String
  cacheRefreshToken : Option String
  cacheTokenExpires : Option Int
deriving DecidableEq, Repr

/-- The result object of checkAuthStatus. -/
structure AuthResult where
  isAuthorized : Bool
  authUrl : Option AuthorizeURL
  serverAuthAvailable : Option Bool
  message : Option String
deriving DecidableEq, Repr

/-- A completed checkAuthStatus call: result, final service state and
filesystem, and whether a token refresh / an authorization-code exchange
request was issued during the call. -/
structure AuthOutcome where
  result : AuthResult
  st : SvcState
  fs : Fs
  refreshCalled : Bool
  exchangeCalled : Bool
deriving DecidableEq, Repr

/-- `config.expiresAt && Date.now() > config.expiresAt - 300000`.
The persisted expiresAt is always written as a number; a truthy
non-number would be coerced to NaN by the subtraction in JavaScript and
compare false, which the fallthrough arm also models. -/
def expiresNear (v : Option JVal) (now : Int) : Bool :=
  match v with
  | some (.num e) => e ≠ 0 && now > e - 300000
  | _ => false

/-- refreshAccessToken: `none` = the provider refresh call failed and the
error is rethrown.  On success (new access token, expires_in seconds):
set the in-memory access token, save the triple to the config file,
cache the expiry, and cache the refresh token when the config save
failed. -/
def refreshAccessTokenM (pe : ProcEnv) (faults : IoFaults) (st : SvcState)
    (fs : Fs) (now : Int) (refreshRes : Option (String × Int)) :
    Option (SvcState × Fs) :=
  match refreshRes with
  | none => none
  | some (tok, expiresIn) =>
    let expiresAt := now + expiresIn * 1000
    let saved := saveTokensToConfig pe faults
      { accessToken := tok, refreshToken := st.refreshToken.getD "",
        expiresAt := expiresAt } fs
    let st1 := { st with accessToken := some tok,
                         cacheTokenExpires := some expiresAt }
    let st2 :=
      if ¬ saved.1 ∧ st.refreshToken.isSome then
        { st1 with cacheRefreshToken := st.refreshToken }
      else st1
    some (st2, saved.2)

/-- The config-file-based first stage of checkAuthStatus (the body of its
outer try).  `.inr` = a terminal outcome; `.inl` = control fell through
to the cache-based check (loadSpotifyConfig threw, the document had no
token pair, or getAuthorizationUrl threw inside the refresh-failure
handler), carrying the possibly-updated state and the
refresh-was-attempted flag. -/
def configStage (pe : ProcEnv) (faults : IoFaults) (randIdx : Nat → Nat)
    (refreshRes : Option (String × Int)) (redirectUri : Option String)
    (now : Int) (st : SvcState) (fs : Fs) :
    (SvcState × Fs × Bool) ⊕ AuthOutcome :=
  match loadSpotifyConfig fs with
  | .error _ => .inl (st, fs, false)
  | .ok config =>
    if truthy (getA config "accessToken") && truthy (getA config "refreshToken") then
      let rstr := jstrOf (getA config "refreshToken")
      let astr := jstrOf (getA config "accessToken")
      -- adopt the persisted pair when it differs from the in-memory one
      let st1 :=
        if st.refreshToken = none ∨ st.refreshToken ≠ some rstr then
          { st with accessToken := some astr, refreshToken := some rstr,
                    cacheRefreshToken := some rstr,
                    cacheTokenExpires :=
                      match getA config "expiresAt" with
                      | some (.num e) =>
                        if e ≠ 0 then some e else st.cacheTokenExpires
                      | _ => st.cacheTokenExpires }
        else st
      if expiresNear (getA config "expiresAt") now then
        match refreshAccessTokenM pe faults st1 fs now refreshRes with
        | some (st2, fs2) =>
          .inr ⟨{ isAuthorized := true, authUrl := none,
                  serverAuthAvailable := none,
                  message := some "Successfully refreshed Spotify access" },
                st2, fs2, true, false⟩
        | none =>
          match getAuthorizationUrl randIdx redirectUri with
          | .error _ => .inl (st1, fs, true)
          | .ok (url, _) =>
            .inr ⟨{ isAuthorized := false, authUrl := some url,
                    serverAuthAvailable := some (serverAuthAvail redirectUri),
                    message := some "Spotify authorization expired. Please re-authorize." },
                  st1, fs, true, false⟩
      else
        .inr ⟨{ isAuthorized := true, authUrl := none,
                serverAuthAvailable := none, message := none },
              st1, fs, false, false⟩
    else .inl (st, fs, false)

/-- `!tokenExpiry || Date.now() > tokenExpiry - 300000` on the cached
expiry. -/
def cacheExpiryNear (v : Option Int) (now : Int) : Bool :=
  match v with
  | none => true
  | some e => e = 0 || now > e - 300000

/-- The cache-based fallback stage of checkAuthStatus, entered when the
config-file stage fell through; `st'`, `fs'` and `refreshTried` carry
its state.  `Except.error` models an exception escaping to the caller
(possible only from getAuthorizationUrl, i.e. when no redirect URI is
configured). -/
def cacheStage (pe : ProcEnv) (faults : IoFaults) (randIdx : Nat → Nat)
    (refreshRes : Option (String × Int)) (redirectUri : Option String)
    (now : Int) (st' : SvcState) (fs' : Fs) (refreshTried : Bool) :
    Except String AuthOutcome :=
  match st'.refreshToken with
    | none =>
      match getAuthorizationUrl randIdx redirectUri with
      | .error e => .error e
      | .ok (url, _) =>
        .ok ⟨{ isAuthorized := false, authUrl := some url,
               serverAuthAvailable := some (serverAuthAvail redirectUri),
               message := some "Spotify authorization required. Please authorize to control music playback." },
             st', fs', refreshTried, false⟩
    | some _ =>
      if cacheExpiryNear st'.cacheTokenExpires now then
        match refreshAccessTokenM pe faults st' fs' now refreshRes with
        | some (st2, fs2) =>
          .ok ⟨{ isAuthorized := true, authUrl := none,
                 serverAuthAvailable := none,
                 message := some "Successfully refreshed Spotify access" },
               st2, fs2, true, false⟩
        | none =>
          match getAuthorizationUrl randIdx redirectUri with
          | .error e => .error e
          | .ok (url, _) =>
            .ok ⟨{ isAuthorized := false, authUrl := some url,
                   serverAuthAvailable := some (serverAuthAvail redirectUri),
                   message := some "Spotify authorization expired. Please re-authorize." },
                 st', fs', true, false⟩
      else
        .ok ⟨{ isAuthorized := true, authUrl := none,
               serverAuthAvailable := none, message := none },
             st', fs', refreshTried, false⟩

/-- checkAuthStatus: the config-file-based stage with fallback to the
cache-based stage when it falls through. -/
def checkAuthStatus (pe : ProcEnv) (faults : IoFaults) (randIdx : Nat → Nat)
    (refreshRes : Option (String × Int)) (redirectUri : Option String)
    (now : Int) (st : SvcState) (fs : Fs) : Except String AuthOutcome :=
  match configStage pe faults randIdx refreshRes redirectUri now st fs with
  | .inr out => .ok out
  | .inl (st', fs', refreshTried) =>
    cacheStage pe faults randIdx refreshRes redirectUri now st' fs' refreshTried

/-! ## serverAuthorize: the callback request handler -/

/-- An inbound HTTP request to the callback listener, reduced to the
parts the handler inspects: pathname and the code / state / error query
parameters (searchParams.get returns null for an absent parameter,
modelled as `none`). -/
structure CallbackRequest where
  path : String
  code : Option String
  state : Option String
  err : Option String
deriving DecidableEq, Repr

/-- JavaScript truthiness of a string-or-null query parameter
(`if (error)`, `if (!code)`): absent or empty is falsy. -/
def truthyParam : Option String → Bool
  | none => false
  | some s => s ≠ ""

/-- What one inbound request did to the pending serverAuthorize promise:
`resolution = none` keeps the promise pending (listener stays up),
otherwise the promise resolves with (success, message).  Also records
whether the listener was closed, whether a token-exchange request was
issued, and the resulting service state and filesystem. -/
structure CallbackOutcome where
  resolution : Option (Bool × String)
  serverClosed : Bool
  exchangeCalled : Bool
  st : SvcState
  fs : Fs
deriving DecidableEq, Repr

/-- The request handler installed by serverAuthorize, for one inbound
request.  `issuedState` is the state token returned by
getAuthorizationUrl when the flow started; `exchangeRes` is the outcome
of the (network) authorization-code exchange: `.error msg` = it threw. -/
def handleCallbackRequest (pe : ProcEnv) (faults : IoFaults)
    (exchangeRes : Except String (String × String))
    (callbackPath issuedState : String) (now : Int)
    (st : SvcState) (fs : Fs) (req : CallbackRequest) : CallbackOutcome :=
  if req.path ≠ callbackPath then
    -- respond 404 and keep listening
    ⟨none, false, false, st, fs⟩
  else if truthyParam req.err then
    ⟨some (false, "Authorization failed: " ++ req.err.getD ""),
     true, false, st, fs⟩
  else if req.state ≠ some issuedState then
    ⟨some (false, "State mismatch"), true, false, st, fs⟩
  else if ¬ truthyParam req.code then
    ⟨some (false, "No authorization code received"), true, false, st, fs⟩
  else
    match exchangeRes with
    | .error msg =>
      ⟨some (false, "Token exchange error: " ++ msg), true, true, st, fs⟩
    | .ok (accessTok, refreshTok) =>
      -- set tokens, persist (expiresIn fixed at 3600 s), cache as backup
      let expiresAt := now + 3600 * 1000
      let saved := saveTokensToConfig pe faults
        { accessToken := accessTok, refreshToken := refreshTok,
          expiresAt := expiresAt } fs
      let st1 := { st with accessToken := some accessTok,
                           refreshToken := some refreshTok,
                           cacheRefreshToken := some refreshTok,
                           cacheTokenExpires := some expiresAt }
      ⟨some (true, "Authentication successful"), true, true, st1, saved.2⟩

/-! ## Concrete sample data used by the witness theorems -/

/-- A valid config document with an extra unknown field. -/
def sampleDoc : Doc :=
  [("clientId", JVal.str "a"), ("clientSecret", JVal.str "b"),
   ("redirectUri", JVal.str "https://localhost:8888/callback"),
   ("theme", JVal.str "dark")]

/-- A filesystem holding just that document. -/
def sampleFs : Fs := [(configPath, FileData.obj sampleDoc)]

/-- A complete token triple. -/
def sampleTokens : Tokens := ⟨"AT", "RT", 99⟩

/-- An environment with no Spotify variables set. -/
def samplePe : ProcEnv := ⟨"", "", ""⟩

/-- A fresh service state: nothing in memory, nothing cached. -/
def sampleSvc : SvcState := ⟨none, none, none, none⟩

/-- The sample document extended with a persisted token triple. -/
def sampleDocTok : Doc :=
  sampleDoc ++ [("accessToken", JVal.str "AT"), ("refreshToken", JVal.str "RT"),
    ("expiresAt", JVal.num 2000000)]

/-- A filesystem holding the tokened document. -/
def sampleFsTok : Fs := [(configPath, FileData.obj sampleDocTok)]

/-- The sample document with tokens but no expiresAt field. -/
def sampleDocNoExp : Doc :=
  sampleDoc ++ [("accessToken", JVal.str "AT"), ("refreshToken", JVal.str "RT")]

/-- A filesystem holding the expiry-less tokened document. -/
def sampleFsNoExp : Fs := [(configPath, FileData.obj sampleDocNoExp)]

/-! ## Generic lemmas about the association-list and filesystem model -/

theorem getA_setA {α : Type} (l : List (String × α)) (k k' : String) (v : α) :
    getA (setA l k v) k' = if k = k' then some v else getA l k' := by
  induction l with
  | nil => by_cases h : k = k' <;> simp [setA, getA, h]
  | cons hd tl ih =>
    obtain ⟨k0, v0⟩ := hd
    by_cases h0 : k0 = k
    · subst h0
      by_cases h1 : k0 = k' <;> simp [setA, getA, h1]
    · by_cases h1 : k0 = k'
      · subst h1
        simp [setA, getA, h0, Ne.symm h0]
      · simp [setA, getA, h0, h1, ih]

theorem setA_self {α : Type} (l : List (String × α)) (k : String) (v : α)
    (h : getA l k = some v) : setA l k v = l := by
  induction l with
  | nil => simp [getA] at h
  | cons hd tl ih =>
    obtain ⟨k0, v0⟩ := hd
    by_cases h0 : k0 = k
    · subst h0
      simp [getA] at h
      simp [setA, h]
    · simp [getA, h0] at h
      simp [setA, h0, ih h]

theorem getA_delA {α : Type} (l : List (String × α)) (k k' : String)
    (h : k ≠ k') : getA (delA l k) k' = getA l k' := by
  induction l with
  | nil => simp [delA]
  | cons hd tl ih =>
    obtain ⟨k0, v0⟩ := hd
    by_cases h0 : k0 = k
    · subst h0
      simp [delA, getA, h]
    · simp [delA, getA, h0, ih]

theorem fsRead_fsWrite (fs : Fs) (p q : String) (d : FileData) :
    fsRead (fsWrite fs p d) q = if p = q then some d else fsRead fs q :=
  getA_setA fs p q d

theorem configPath_ne_backupPath : configPath ≠ backupPath := by decide

theorem configPath_ne_tempPath : configPath ≠ tempPath := by decide

theorem tempPath_ne_backupPath : tempPath ≠ backupPath := by decide

theorem getConfigFilePath_eq (fs : Fs) : getConfigFilePath fs = configPath := by
  unfold getConfigFilePath findConfigFile CONFIG_LOCATIONS
  cases h : fsHas fs configPath <;> simp [List.find?, h]

theorem findConfigFile_of_read (fs : Fs) (d : FileData)
    (h : fsRead fs configPath = some d) : findConfigFile fs = some configPath := by
  unfold findConfigFile CONFIG_LOCATIONS
  simp [List.find?, fsHas, h]

theorem findConfigFile_of_none (fs : Fs)
    (h : fsRead fs configPath = none) : findConfigFile fs = none := by
  unfold findConfigFile CONFIG_LOCATIONS
  simp [List.find?, fsHas, h]

/-- After the catch-block restore, the config document equals the backup
whenever the backup exists. -/
theorem restoreFromBackup_prop (fs : Fs)
    (h : fsHas (restoreFromBackup fs) backupPath = true) :
    fsRead (restoreFromBackup fs) configPath = fsRead (restoreFromBackup fs) backupPath := by
  unfold restoreFromBackup at *
  rw [getConfigFilePath_eq] at *
  cases hb : fsHas fs backupPath with
  | false =>
    rw [hb] at h
    simp at h
    rw [fsHas] at hb
    simp [fsHas, hb] at h
  | true =>
    simp only [hb, if_true]
    unfold fsCopy
    cases hr : fsRead fs backupPath with
    | none => simp [fsHas, hr] at hb
    | some d =>
      simp only [hr]
      rw [fsRead_fsWrite, fsRead_fsWrite]
      simp [configPath_ne_backupPath, hr]

/-- A config document that parses and carries the three credential
fields passes the integrity check with no repair. -/
theorem verify_valid (fs : Fs) (doc : Doc)
    (h1 : fsRead fs configPath = some (FileData.obj doc))
    (h2 : truthy (getA doc "clientId") = true)
    (h3 : truthy (getA doc "clientSecret") = true)
    (h4 : truthy (getA doc "redirectUri") = true) :
    verifyConfigFileIntegrity fs = (true, fs) := by
  unfold verifyConfigFileIntegrity
  rw [findConfigFile_of_read fs _ h1]
  simp only [h1, h2, h3, h4, Bool.and_self]

/-- Reading the config path after the temp-write / rename pair yields the
renamed content. -/
theorem fsRead_rename_final (fs : Fs) (d : FileData) :
    fsRead (fsRename (fsWrite fs tempPath d) tempPath configPath) configPath = some d := by
  unfold fsRename
  rw [fsRead_fsWrite]
  simp only [if_pos rfl]
  show getA (delA (fsWrite (fsWrite fs tempPath d) configPath d) tempPath) configPath = some d
  rw [getA_delA _ _ _ configPath_ne_tempPath.symm]
  rw [show getA (fsWrite (fsWrite fs tempPath d) configPath d) configPath
      = fsRead (fsWrite (fsWrite fs tempPath d) configPath d) configPath from rfl]
  rw [fsRead_fsWrite]
  simp

/-- The backup written before the temp-write / rename pair survives it. -/
theorem fsRead_rename_backup (fs : Fs) (d e : FileData) :
    fsRead (fsRename (fsWrite (fsWrite fs backupPath e) tempPath d) tempPath configPath) backupPath
      = some e := by
  unfold fsRename
  rw [fsRead_fsWrite]
  simp only [if_pos rfl]
  show getA (delA (fsWrite (fsWrite (fsWrite fs backupPath e) tempPath d) configPath d) tempPath)
    backupPath = some e
  rw [getA_delA _ _ _ tempPath_ne_backupPath]
  show fsRead (fsWrite (fsWrite (fsWrite fs backupPath e) tempPath d) configPath d) backupPath
    = some e
  rw [fsRead_fsWrite]
  rw [if_neg configPath_ne_backupPath]
  rw [fsRead_fsWrite]
  rw [if_neg tempPath_ne_backupPath]
  rw [fsRead_fsWrite]
  simp

/-- The fault-free run of saveTokensToConfig on a valid config document:
back up, write the updated document to the temp path, rename into place. -/
theorem saveRun_ok (pe : ProcEnv) (t : Tokens) (fs : Fs) (doc : Doc)
    (h1 : fsRead fs configPath = some (FileData.obj doc))
    (h2 : truthy (getA doc "clientId") = true)
    (h3 : truthy (getA doc "clientSecret") = true)
    (h4 : truthy (getA doc "redirectUri") = true)
    (h5 : tokensValid t = true) :
    saveTokensRun pe noFaults t fs =
      (true,
       fsRename (fsWrite (fsWrite fs backupPath (FileData.obj doc))
           tempPath (FileData.obj (setTokenFields doc t))) tempPath configPath,
       [fs,
        fsWrite fs backupPath (FileData.obj doc),
        fsWrite (fsWrite fs backupPath (FileData.obj doc))
          tempPath (FileData.obj (setTokenFields doc t)),
        fsRename (fsWrite (fsWrite fs backupPath (FileData.obj doc))
            tempPath (FileData.obj (setTokenFields doc t))) tempPath configPath]) := by
  have hback : fsRead (fsWrite fs backupPath (FileData.obj doc)) configPath
      = some (FileData.obj doc) := by
    rw [fsRead_fsWrite, if_neg (Ne.symm configPath_ne_backupPath), h1]
  unfold saveTokensRun
  rw [verify_valid fs doc h1 h2 h3 h4]
  simp only [h5, Bool.not_true, getConfigFilePath_eq, backupConfigFile,
    findConfigFile_of_read fs (FileData.obj doc) h1, fsCopy, h1, noFaults,
    Bool.false_eq_true, if_false, hback]
  simp only [show configPath ++ ".bak" = backupPath from rfl, not_true, if_false]
  rw [hback]

/-! ## Claim theorems -/

/-- C1 counterexample: with the config document missing at every
configured search location and the example/template document present,
verifyConfigFileIntegrity returns false and copies nothing — it does not
self-heal from the template in the missing case (only in the
exists-but-empty case). -/
theorem C1_counterexample :
    verifyConfigFileIntegrity [(examplePath, FileData.obj [])] =
      (false, [(examplePath, FileData.obj [])]) := by decide

/-- C1 (amended): verifyConfigFileIntegrity self-heals from the
example/template document only when the config document exists but is
empty (then it copies the template into the active location and returns
true); when the document is missing at all configured search locations
it returns false and leaves the filesystem untouched, template or not. -/
theorem C1_theorem :
    (∀ fs : Fs, fsRead fs configPath = none →
      verifyConfigFileIntegrity fs = (false, fs)) ∧
    (∀ fs : Fs, fsRead fs configPath = some FileData.empty →
      fsHas fs examplePath = true →
      verifyConfigFileIntegrity fs = (true, fsCopy fs examplePath configPath)) := by
  constructor
  · intro fs h
    unfold verifyConfigFileIntegrity
    rw [findConfigFile_of_none fs h]
  · intro fs h he
    unfold verifyConfigFileIntegrity
    rw [findConfigFile_of_read fs _ h]
    simp only [h, he, if_true]

/-- C1 witness: the amended claim applied to two concrete filesystems:
example only (missing config → false, untouched), and empty config with
example (→ true, template copied into place). -/
theorem C1_witness :
    verifyConfigFileIntegrity [(examplePath, FileData.obj [])] =
      (false, [(examplePath, FileData.obj [])]) ∧
    verifyConfigFileIntegrity [(configPath, FileData.empty), (examplePath, FileData.obj [])] =
      (true, fsCopy [(configPath, FileData.empty), (examplePath, FileData.obj [])]
        examplePath configPath) :=
  ⟨C1_theorem.1 _ (by decide), C1_theorem.2 _ (by decide) (by decide)⟩

/-- C10: when the config document contains invalid JSON and a `.bak`
sibling exists, verifyConfigFileIntegrity copies the backup (whatever
its content d, valid or not) over the document and returns true — the
restored content is not parsed or validated. -/
theorem C10_theorem : ∀ (fs : Fs) (d : FileData),
    fsRead fs configPath = some FileData.invalid →
    fsRead fs backupPath = some d →
    verifyConfigFileIntegrity fs = (true, fsWrite fs configPath d) := by
  intro fs d h hb
  unfold verifyConfigFileIntegrity
  rw [findConfigFile_of_read fs _ h]
  simp only [h, show configPath ++ ".bak" = backupPath from rfl, fsHas, hb,
    Option.isSome, if_true, fsCopy]

/-- C10 witness: an invalid config document restored from a backup that
is itself invalid JSON still reports integrity restored (true). -/
theorem C10_witness :
    verifyConfigFileIntegrity [(configPath, FileData.invalid), (backupPath, FileData.invalid)] =
      (true, fsWrite [(configPath, FileData.invalid), (backupPath, FileData.invalid)]
        configPath FileData.invalid) :=
  C10_theorem _ _ (by decide) (by decide)

theorem fsRead_write_same (fs : Fs) (p : String) (d : FileData) :
    fsRead (fsWrite fs p d) p = some d := by
  rw [fsRead_fsWrite]; simp

theorem fsRead_write_other (fs : Fs) (p q : String) (d : FileData) (h : p ≠ q) :
    fsRead (fsWrite fs p d) q = fsRead fs q := by
  rw [fsRead_fsWrite, if_neg h]

/-- When the backup exists, the catch-block restore is a copy of its
content over the config path. -/
theorem restoreFromBackup_write (fs : Fs) (d : FileData)
    (h : fsRead fs backupPath = some d) :
    restoreFromBackup fs = fsWrite fs configPath d := by
  unfold restoreFromBackup
  rw [getConfigFilePath_eq]
  simp [fsHas, h, fsCopy]

theorem getA_setTokenFields_access (doc : Doc) (t : Tokens) :
    getA (setTokenFields doc t) "accessToken" = some (JVal.str t.accessToken) := by
  unfold setTokenFields
  rw [getA_setA, if_neg (by decide), getA_setA, if_neg (by decide), getA_setA, if_pos rfl]

theorem getA_setTokenFields_refresh (doc : Doc) (t : Tokens) :
    getA (setTokenFields doc t) "refreshToken" = some (JVal.str t.refreshToken) := by
  unfold setTokenFields
  rw [getA_setA, if_neg (by decide), getA_setA, if_pos rfl]

theorem getA_setTokenFields_expires (doc : Doc) (t : Tokens) :
    getA (setTokenFields doc t) "expiresAt" = some (JVal.num t.expiresAt) := by
  unfold setTokenFields
  rw [getA_setA, if_pos rfl]

/-- Writing the same token triple into an already-updated document is the
identity: each assignment replaces an equal value in place. -/
theorem setTokenFields_idem (doc : Doc) (t : Tokens) :
    setTokenFields (setTokenFields doc t) t = setTokenFields doc t := by
  rw [show setTokenFields (setTokenFields doc t) t
      = setA (setA (setA (setTokenFields doc t) "accessToken" (JVal.str t.accessToken))
          "refreshToken" (JVal.str t.refreshToken)) "expiresAt" (JVal.num t.expiresAt) from rfl]
  rw [setA_self _ _ _ (getA_setTokenFields_access doc t)]
  rw [setA_self _ _ _ (getA_setTokenFields_refresh doc t)]
  rw [setA_self _ _ _ (getA_setTokenFields_expires doc t)]

/-- Updating the three token fields touches no other key. -/
theorem getA_setTokenFields_other (doc : Doc) (t : Tokens) (k : String)
    (h1 : k ≠ "accessToken") (h2 : k ≠ "refreshToken") (h3 : k ≠ "expiresAt") :
    getA (setTokenFields doc t) k = getA doc k := by
  unfold setTokenFields
  rw [getA_setA, if_neg (Ne.symm h3), getA_setA, if_neg (Ne.symm h2),
    getA_setA, if_neg (Ne.symm h1)]

/-- C3: on an existing valid config document and a complete token
triple, saveTokensToConfig succeeds; the final document is exactly the
old one with the three token fields updated (every other key/value pair
is preserved, in place); and — for every fault pattern — every
filesystem state visible at the config path during the call is either
the old document or the fully-updated one, never a torn intermediate. -/
theorem C3_theorem : ∀ (pe : ProcEnv) (t : Tokens) (fs : Fs) (doc : Doc),
    fsRead fs configPath = some (FileData.obj doc) →
    truthy (getA doc "clientId") = true →
    truthy (getA doc "clientSecret") = true →
    truthy (getA doc "redirectUri") = true →
    tokensValid t = true →
    (saveTokensToConfig pe noFaults t fs).1 = true ∧
    fsRead (saveTokensToConfig pe noFaults t fs).2 configPath
      = some (FileData.obj (setTokenFields doc t)) ∧
    (∀ k : String, k ≠ "accessToken" → k ≠ "refreshToken" → k ≠ "expiresAt" →
      getA (setTokenFields doc t) k = getA doc k) ∧
    (∀ faults : IoFaults, ∀ fs' ∈ (saveTokensRun pe faults t fs).2.2,
      fsRead fs' configPath = some (FileData.obj doc) ∨
      fsRead fs' configPath = some (FileData.obj (setTokenFields doc t))) := by
  intro pe t fs doc h1 h2 h3 h4 h5
  have hrun := saveRun_ok pe t fs doc h1 h2 h3 h4 h5
  have hB : fsRead (fsWrite fs backupPath (FileData.obj doc)) configPath
      = some (FileData.obj doc) := by
    rw [fsRead_write_other _ _ _ _ (Ne.symm configPath_ne_backupPath)]; exact h1
  have hBb : fsRead (fsWrite fs backupPath (FileData.obj doc)) backupPath
      = some (FileData.obj doc) := fsRead_write_same _ _ _
  have hT : fsRead (fsWrite (fsWrite fs backupPath (FileData.obj doc)) tempPath
        (FileData.obj (setTokenFields doc t))) configPath
      = some (FileData.obj doc) := by
    rw [fsRead_write_other _ _ _ _ (Ne.symm configPath_ne_tempPath)]; exact hB
  have hTb : fsRead (fsWrite (fsWrite fs backupPath (FileData.obj doc)) tempPath
        (FileData.obj (setTokenFields doc t))) backupPath
      = some (FileData.obj doc) := by
    rw [fsRead_write_other _ _ _ _ tempPath_ne_backupPath]; exact hBb
  have hR : fsRead (fsRename (fsWrite (fsWrite fs backupPath (FileData.obj doc)) tempPath
        (FileData.obj (setTokenFields doc t))) tempPath configPath) configPath
      = some (FileData.obj (setTokenFields doc t)) := fsRead_rename_final _ _
  have hRb : fsRead (fsRename (fsWrite (fsWrite fs backupPath (FileData.obj doc)) tempPath
        (FileData.obj (setTokenFields doc t))) tempPath configPath) backupPath
      = some (FileData.obj doc) := fsRead_rename_backup _ _ _
  refine ⟨?_, ?_, ?_, ?_⟩
  · unfold saveTokensToConfig
    rw [hrun]
  · unfold saveTokensToConfig
    rw [hrun]
    exact fsRead_rename_final _ _
  · exact fun k hk1 hk2 hk3 => getA_setTokenFields_other doc t k hk1 hk2 hk3
  · intro faults fs' hmem
    unfold saveTokensRun at hmem
    rw [verify_valid fs doc h1 h2 h3 h4] at hmem
    simp only [h5, Bool.not_true, getConfigFilePath_eq, backupConfigFile,
      findConfigFile_of_read fs (FileData.obj doc) h1, fsCopy, h1,
      Bool.false_eq_true, not_true, if_false,
      show configPath ++ ".bak" = backupPath from rfl] at hmem
    by_cases f1 : faults.readFails = true
    · simp only [f1, eq_self_iff_true, if_true] at hmem
      rw [restoreFromBackup_write _ _ hBb] at hmem
      simp only [List.mem_cons, List.not_mem_nil, or_false] at hmem
      rcases hmem with rfl | rfl | rfl
      · exact Or.inl h1
      · exact Or.inl hB
      · exact Or.inl (fsRead_write_same _ _ _)
    · simp only [f1, Bool.false_eq_true, if_false, hB] at hmem
      by_cases f2 : faults.writeFails = true
      · simp only [f2, eq_self_iff_true, if_true] at hmem
        rw [restoreFromBackup_write _ _ hBb] at hmem
        simp only [List.mem_cons, List.not_mem_nil, or_false] at hmem
        rcases hmem with rfl | rfl | rfl
        · exact Or.inl h1
        · exact Or.inl hB
        · exact Or.inl (fsRead_write_same _ _ _)
      · simp only [f2, Bool.false_eq_true, if_false] at hmem
        by_cases f3 : faults.renameFails = true
        · simp only [f3, eq_self_iff_true, if_true] at hmem
          rw [restoreFromBackup_write _ _ hTb] at hmem
          simp only [List.mem_cons, List.not_mem_nil, or_false] at hmem
          rcases hmem with rfl | rfl | rfl | rfl
          · exact Or.inl h1
          · exact Or.inl hB
          · exact Or.inl hT
          · exact Or.inl (fsRead_write_same _ _ _)
        · simp only [f3, Bool.false_eq_true, if_false] at hmem
          by_cases f4 : faults.readbackFails = true
          · simp only [f4, eq_self_iff_true, if_true] at hmem
            rw [restoreFromBackup_write _ _ hRb] at hmem
            simp only [List.mem_cons, List.not_mem_nil, or_false] at hmem
            rcases hmem with rfl | rfl | rfl | rfl | rfl
            · exact Or.inl h1
            · exact Or.inl hB
            · exact Or.inl hT
            · exact Or.inr hR
            · exact Or.inl (fsRead_write_same _ _ _)
          · simp only [f4, Bool.false_eq_true, if_false] at hmem
            simp only [List.mem_cons, List.not_mem_nil, or_false] at hmem
            rcases hmem with rfl | rfl | rfl | rfl
            · exact Or.inl h1
            · exact Or.inl hB
            · exact Or.inl hT
            · exact Or.inr hR

/-- C3 witness: saving the sample triple into the sample document
succeeds, the config file ends with exactly the three token fields
updated, and the unknown field "theme" is untouched. -/
theorem C3_witness :
    (saveTokensToConfig samplePe noFaults sampleTokens sampleFs).1 = true ∧
    fsRead (saveTokensToConfig samplePe noFaults sampleTokens sampleFs).2 configPath
      = some (FileData.obj (setTokenFields sampleDoc sampleTokens)) ∧
    getA (setTokenFields sampleDoc sampleTokens) "theme" = getA sampleDoc "theme" := by
  have h := C3_theorem samplePe sampleTokens sampleFs sampleDoc
    (by decide) (by decide) (by decide) (by decide) (by decide)
  exact ⟨h.1, h.2.1, h.2.2.1 "theme" (by decide) (by decide) (by decide)⟩

/-- C7: saveTokensToConfig is idempotent on a valid document: both
calls with the same triple succeed, the document after the second call
is identical (same ordered field list, hence byte-equivalent) to the
document after the first, and all keys other than the three token
fields keep their original values. -/
theorem C7_theorem : ∀ (pe : ProcEnv) (t : Tokens) (fs : Fs) (doc : Doc),
    fsRead fs configPath = some (FileData.obj doc) →
    truthy (getA doc "clientId") = true →
    truthy (getA doc "clientSecret") = true →
    truthy (getA doc "redirectUri") = true →
    tokensValid t = true →
    (saveTokensToConfig pe noFaults t fs).1 = true ∧
    (saveTokensToConfig pe noFaults t (saveTokensToConfig pe noFaults t fs).2).1 = true ∧
    fsRead (saveTokensToConfig pe noFaults t (saveTokensToConfig pe noFaults t fs).2).2 configPath
      = some (FileData.obj (setTokenFields doc t)) ∧
    fsRead (saveTokensToConfig pe noFaults t fs).2 configPath
      = some (FileData.obj (setTokenFields doc t)) ∧
    (∀ k : String, k ≠ "accessToken" → k ≠ "refreshToken" → k ≠ "expiresAt" →
      getA (setTokenFields doc t) k = getA doc k) := by
  intro pe t fs doc h1 h2 h3 h4 h5
  have hrun1 := saveRun_ok pe t fs doc h1 h2 h3 h4 h5
  have hfin1 : saveTokensToConfig pe noFaults t fs
      = (true, fsRename (fsWrite (fsWrite fs backupPath (FileData.obj doc)) tempPath
          (FileData.obj (setTokenFields doc t))) tempPath configPath) := by
    unfold saveTokensToConfig
    rw [hrun1]
  have hread1 : fsRead (saveTokensToConfig pe noFaults t fs).2 configPath
      = some (FileData.obj (setTokenFields doc t)) := by
    rw [hfin1]
    exact fsRead_rename_final _ _
  have h2' : truthy (getA (setTokenFields doc t) "clientId") = true := by
    rw [getA_setTokenFields_other doc t _ (by decide) (by decide) (by decide)]
    exact h2
  have h3' : truthy (getA (setTokenFields doc t) "clientSecret") = true := by
    rw [getA_setTokenFields_other doc t _ (by decide) (by decide) (by decide)]
    exact h3
  have h4' : truthy (getA (setTokenFields doc t) "redirectUri") = true := by
    rw [getA_setTokenFields_other doc t _ (by decide) (by decide) (by decide)]
    exact h4
  have hrun2 := saveRun_ok pe t (saveTokensToConfig pe noFaults t fs).2
    (setTokenFields doc t) hread1 h2' h3' h4' h5
  have hfin2 : saveTokensToConfig pe noFaults t (saveTokensToConfig pe noFaults t fs).2
      = (true, fsRename (fsWrite (fsWrite (saveTokensToConfig pe noFaults t fs).2
          backupPath (FileData.obj (setTokenFields doc t))) tempPath
          (FileData.obj (setTokenFields (setTokenFields doc t) t))) tempPath configPath) := by
    rw [show saveTokensToConfig pe noFaults t (saveTokensToConfig pe noFaults t fs).2
        = ((saveTokensRun pe noFaults t (saveTokensToConfig pe noFaults t fs).2).1,
           (saveTokensRun pe noFaults t (saveTokensToConfig pe noFaults t fs).2).2.1) from rfl]
    rw [hrun2]
  refine ⟨?_, ?_, ?_, hread1, ?_⟩
  · rw [hfin1]
  · rw [hfin2]
  · rw [hfin2]
    rw [setTokenFields_idem]
    exact fsRead_rename_final _ _
  · exact fun k hk1 hk2 hk3 => getA_setTokenFields_other doc t k hk1 hk2 hk3

/-- C7 witness: the second identical save on the sample data succeeds
and leaves the config document equal to the document after the first
save. -/
theorem C7_witness :
    (saveTokensToConfig samplePe noFaults sampleTokens
      (saveTokensToConfig samplePe noFaults sampleTokens sampleFs).2).1 = true ∧
    fsRead (saveTokensToConfig samplePe noFaults sampleTokens
      (saveTokensToConfig samplePe noFaults sampleTokens sampleFs).2).2 configPath
      = some (FileData.obj (setTokenFields sampleDoc sampleTokens)) := by
  have h := C7_theorem samplePe sampleTokens sampleFs sampleDoc
    (by decide) (by decide) (by decide) (by decide) (by decide)
  exact ⟨h.2.1, h.2.2.1⟩

/-- C4: with a valid token triple, any injected IO failure (read, write,
rename, read-back; a parse failure surfaces through the same catch) makes
saveTokensToConfig return false instead of throwing, and on every failing
return the config document has been restored from the `.bak` sibling
whenever that backup exists: the final config content equals the final
backup content. -/
theorem C4_theorem : ∀ (pe : ProcEnv) (faults : IoFaults) (t : Tokens) (fs : Fs),
    tokensValid t = true →
    ((faults.readFails || faults.writeFails || faults.renameFails
        || faults.readbackFails) = true →
      (saveTokensToConfig pe faults t fs).1 = false) ∧
    ((saveTokensToConfig pe faults t fs).1 = false →
      fsHas (saveTokensToConfig pe faults t fs).2 backupPath = true →
      fsRead (saveTokensToConfig pe faults t fs).2 configPath
        = fsRead (saveTokensToConfig pe faults t fs).2 backupPath) := by
  intro pe faults t fs h5
  constructor
  · intro hA
    unfold saveTokensToConfig saveTokensRun
    simp only [h5, not_true, if_false]
    repeat' split
    all_goals try rfl
    all_goals simp_all
  · unfold saveTokensToConfig saveTokensRun
    simp only [h5, not_true, if_false]
    repeat' split
    all_goals
      first
        | (intro h hB
           exact restoreFromBackup_prop _ hB)
        | (intro h hB
           simp at h)

/-- C4 witness: with an injected read-back failure on the sample data,
the save reports false and the config document equals its backup. -/
theorem C4_witness :
    (saveTokensToConfig samplePe ⟨false, false, false, true⟩ sampleTokens sampleFs).1 = false ∧
    fsRead (saveTokensToConfig samplePe ⟨false, false, false, true⟩ sampleTokens sampleFs).2
        configPath
      = fsRead (saveTokensToConfig samplePe ⟨false, false, false, true⟩ sampleTokens sampleFs).2
        backupPath := by
  have h := C4_theorem samplePe ⟨false, false, false, true⟩ sampleTokens sampleFs (by decide)
  have h1 := h.1 (by decide)
  exact ⟨h1, h.2 h1 (by decide)⟩

/-- C2: when the persisted config document loads, carries a (truthy)
accessToken/refreshToken pair and an expiresAt more than 300000 ms in
the future, checkAuthStatus returns isAuthorized true without issuing a
refresh or an authorization-code exchange. -/
theorem C2_theorem : ∀ (pe : ProcEnv) (faults : IoFaults) (randIdx : Nat → Nat)
    (refreshRes : Option (String × Int)) (redirectUri : Option String)
    (now e : Int) (st : SvcState) (fs : Fs) (doc : Doc) (a r : String),
    loadSpotifyConfig fs = .ok doc →
    getA doc "accessToken" = some (JVal.str a) → a ≠ "" →
    getA doc "refreshToken" = some (JVal.str r) → r ≠ "" →
    getA doc "expiresAt" = some (JVal.num e) →
    now + 300000 < e →
    ∃ out : AuthOutcome,
      checkAuthStatus pe faults randIdx refreshRes redirectUri now st fs = .ok out ∧
      out.result.isAuthorized = true ∧
      out.refreshCalled = false ∧
      out.exchangeCalled = false := by
  intro pe faults randIdx refreshRes redirectUri now e st fs doc a r
    hload ha hane hr hrne he hfresh
  have hnear : expiresNear (getA doc "expiresAt") now = false := by
    rw [he]
    simp only [expiresNear, Bool.and_eq_false_iff]
    right
    simp only [decide_eq_false_iff_not, not_lt]
    omega
  have hta : truthy (getA doc "accessToken") = true := by
    rw [ha]; simp [truthy, hane]
  have htr : truthy (getA doc "refreshToken") = true := by
    rw [hr]; simp [truthy, hrne]
  unfold checkAuthStatus configStage
  rw [hload]
  simp only [hta, htr, Bool.and_self, eq_self_iff_true, if_true, hnear,
    Bool.false_eq_true, if_false]
  exact ⟨_, rfl, rfl, rfl, rfl⟩

/-- C2 witness: a concrete fresh document (expiresAt 2000000, now 1000)
is reported authorized with no refresh and no exchange. -/
theorem C2_witness :
    ∃ out : AuthOutcome,
      checkAuthStatus samplePe noFaults (fun _ => 0) none
          (some "https://localhost:8888/callback") 1000 sampleSvc sampleFsTok = .ok out ∧
      out.result.isAuthorized = true ∧
      out.refreshCalled = false ∧
      out.exchangeCalled = false :=
  C2_theorem samplePe noFaults (fun _ => 0) none
    (some "https://localhost:8888/callback") 1000 2000000 sampleSvc sampleFsTok
    sampleDocTok "AT" "RT" rfl (by decide) (by decide) (by decide)
    (by decide) (by decide) (by decide)

/-- C9: when the loaded document has the token pair but no expiresAt
field at all, the near-expiry check is skipped and checkAuthStatus
reports isAuthorized true without attempting a refresh. -/
theorem C9_theorem : ∀ (pe : ProcEnv) (faults : IoFaults) (randIdx : Nat → Nat)
    (refreshRes : Option (String × Int)) (redirectUri : Option String)
    (now : Int) (st : SvcState) (fs : Fs) (doc : Doc) (a r : String),
    loadSpotifyConfig fs = .ok doc →
    getA doc "accessToken" = some (JVal.str a) → a ≠ "" →
    getA doc "refreshToken" = some (JVal.str r) → r ≠ "" →
    getA doc "expiresAt" = none →
    ∃ out : AuthOutcome,
      checkAuthStatus pe faults randIdx refreshRes redirectUri now st fs = .ok out ∧
      out.result.isAuthorized = true ∧
      out.refreshCalled = false ∧
      out.exchangeCalled = false := by
  intro pe faults randIdx refreshRes redirectUri now st fs doc a r
    hload ha hane hr hrne he
  have hnear : expiresNear (getA doc "expiresAt") now = false := by
    rw [he]
    rfl
  have hta : truthy (getA doc "accessToken") = true := by
    rw [ha]; simp [truthy, hane]
  have htr : truthy (getA doc "refreshToken") = true := by
    rw [hr]; simp [truthy, hrne]
  unfold checkAuthStatus configStage
  rw [hload]
  simp only [hta, htr, Bool.and_self, eq_self_iff_true, if_true, hnear,
    Bool.false_eq_true, if_false]
  exact ⟨_, rfl, rfl, rfl, rfl⟩

/-- C9 witness: a concrete document with tokens and no expiresAt is
reported authorized with no refresh at an arbitrary clock value. -/
theorem C9_witness :
    ∃ out : AuthOutcome,
      checkAuthStatus samplePe noFaults (fun _ => 0) none
          (some "https://localhost:8888/callback") 123456789 sampleSvc sampleFsNoExp
        = .ok out ∧
      out.result.isAuthorized = true ∧
      out.refreshCalled = false ∧
      out.exchangeCalled = false :=
  C9_theorem samplePe noFaults (fun _ => 0) none
    (some "https://localhost:8888/callback") 123456789 sampleSvc sampleFsNoExp
    sampleDocNoExp "AT" "RT" rfl (by decide) (by decide) (by decide)
    (by decide) (by decide)

/-- Cache-stage behaviour with a configured redirect URI and a failing
refresh: the stage returns a result (never throws), and any outcome that
attempted a refresh reports not-authorized with a fresh URL and the
localhost-derived serverAuthAvailable flag. -/
theorem cacheStage_spec : ∀ (pe : ProcEnv) (faults : IoFaults) (randIdx : Nat → Nat)
    (r : String) (now : Int) (st' : SvcState) (fs' : Fs),
    r ≠ "" →
    ∃ out : AuthOutcome,
      cacheStage pe faults randIdx none (some r) now st' fs' false = .ok out ∧
      (out.refreshCalled = true →
        out.result.isAuthorized = false ∧
        (∃ u, out.result.authUrl = some u) ∧
        out.result.serverAuthAvailable
          = some (strContains r "localhost" || strContains r "127.0.0.1")) := by
  intro pe faults randIdx r now st' fs' hr
  have hurl : getAuthorizationUrl randIdx (some r)
      = .ok ({ scopes := authScopes, state := generateRandomString randIdx 16 },
             generateRandomString randIdx 16) := by
    simp [getAuthorizationUrl, hr]
  have hsa : serverAuthAvail (some r)
      = (strContains r "localhost" || strContains r "127.0.0.1") := by
    simp [serverAuthAvail, hr]
  have hrm : refreshAccessTokenM pe faults st' fs' now none = none := rfl
  unfold cacheStage
  cases hrt : st'.refreshToken with
  | none =>
    simp only [hurl, hsa]
    exact ⟨_, rfl, fun hrc => absurd hrc (by simp)⟩
  | some t =>
    by_cases hne : cacheExpiryNear st'.cacheTokenExpires now = true
    · simp only [hne, eq_self_iff_true, if_true, hrm, hurl, hsa]
      exact ⟨_, rfl, fun _ => ⟨rfl, ⟨_, rfl⟩, rfl⟩⟩
    · simp only [hne, if_false]
      exact ⟨_, rfl, fun hrc => absurd hrc (by simp)⟩

/-- Config-stage behaviour with a configured redirect URI and a failing
refresh: a fallthrough never carries a pending refresh attempt, and a
terminal outcome that attempted a refresh reports not-authorized with a
fresh URL and the localhost-derived serverAuthAvailable flag. -/
theorem configStage_spec : ∀ (pe : ProcEnv) (faults : IoFaults) (randIdx : Nat → Nat)
    (r : String) (now : Int) (st : SvcState) (fs : Fs),
    r ≠ "" →
    (∀ (st' : SvcState) (fs' : Fs) (rt : Bool),
      configStage pe faults randIdx none (some r) now st fs = .inl (st', fs', rt) →
      rt = false) ∧
    (∀ out : AuthOutcome,
      configStage pe faults randIdx none (some r) now st fs = .inr out →
      out.refreshCalled = true →
        out.result.isAuthorized = false ∧
        (∃ u, out.result.authUrl = some u) ∧
        out.result.serverAuthAvailable
          = some (strContains r "localhost" || strContains r "127.0.0.1")) := by
  intro pe faults randIdx r now st fs hr
  have hurl : getAuthorizationUrl randIdx (some r)
      = .ok ({ scopes := authScopes, state := generateRandomString randIdx 16 },
             generateRandomString randIdx 16) := by
    simp [getAuthorizationUrl, hr]
  have hsa : serverAuthAvail (some r)
      = (strContains r "localhost" || strContains r "127.0.0.1") := by
    simp [serverAuthAvail, hr]
  unfold configStage
  cases hload : loadSpotifyConfig fs with
  | error e =>
    constructor
    · intro st' fs' rt h
      cases h
      rfl
    · intro out h
      cases h
  | ok config =>
    by_cases htok : (truthy (getA config "accessToken")
        && truthy (getA config "refreshToken")) = true
    · by_cases hnear : expiresNear (getA config "expiresAt") now = true
      · simp only [htok, hnear, eq_self_iff_true, if_true, hurl, hsa,
          show ∀ (st1 : SvcState), refreshAccessTokenM pe faults st1 fs now none = none
            from fun _ => rfl]
        constructor
        · intro st' fs' rt h
          cases h
        · intro out h
          cases h
          exact fun _ => ⟨rfl, ⟨_, rfl⟩, rfl⟩
      · simp only [htok, hnear, eq_self_iff_true, if_true, if_false]
        constructor
        · intro st' fs' rt h
          cases h
        · intro out h
          cases h
          intro hrc
          exact absurd hrc (by simp)
    · simp only [htok, if_false]
      constructor
      · intro st' fs' rt h
        cases h
        rfl
      · intro out h
        cases h

/-- C6: with a configured (non-empty) redirect URI, a failing token
refresh inside checkAuthStatus never escapes as an exception: the call
returns a result, and whenever a refresh was attempted (and failed,
refreshRes = none), that result has isAuthorized false, a freshly built
authorization URL, and serverAuthAvailable true exactly when the
redirect URI contains "localhost" or "127.0.0.1". -/
theorem C6_theorem : ∀ (pe : ProcEnv) (faults : IoFaults) (randIdx : Nat → Nat)
    (r : String) (now : Int) (st : SvcState) (fs : Fs),
    r ≠ "" →
    ∃ out : AuthOutcome,
      checkAuthStatus pe faults randIdx none (some r) now st fs = .ok out ∧
      (out.refreshCalled = true →
        out.result.isAuthorized = false ∧
        (∃ u, out.result.authUrl = some u) ∧
        out.result.serverAuthAvailable
          = some (strContains r "localhost" || strContains r "127.0.0.1")) := by
  intro pe faults randIdx r now st fs hr
  have hspec := configStage_spec pe faults randIdx r now st fs hr
  unfold checkAuthStatus
  cases hcs : configStage pe faults randIdx none (some r) now st fs with
  | inr out => exact ⟨out, rfl, hspec.2 out hcs⟩
  | inl trip =>
    obtain ⟨st', fs', rt⟩ := trip
    have hrt := hspec.1 st' fs' rt hcs
    subst hrt
    exact cacheStage_spec pe faults randIdx r now st' fs' hr

/-- C6 witness: config-based refresh failure at a concrete near-expiry
document: the call returns a result, and since a refresh was attempted
it is not authorized, carries an authorization URL, and flags local
server auth as available. -/
theorem C6_witness :
    ∃ out : AuthOutcome,
      checkAuthStatus samplePe noFaults (fun _ => 0) none
          (some "https://localhost:8888/callback") 1999999 sampleSvc sampleFsTok
        = .ok out ∧
      (out.refreshCalled = true →
        out.result.isAuthorized = false ∧
        (∃ u, out.result.authUrl = some u) ∧
        out.result.serverAuthAvailable
          = some (strContains "https://localhost:8888/callback" "localhost"
              || strContains "https://localhost:8888/callback" "127.0.0.1")) :=
  C6_theorem samplePe noFaults (fun _ => 0) "https://localhost:8888/callback"
    1999999 sampleSvc sampleFsTok (by decide)

/-- C5 counterexample: a callback-path request whose state differs from
the issued state but which also carries an error parameter resolves with
the provider-error message, not with 'State mismatch' — the error check
runs first. -/
theorem C5_counterexample :
    (handleCallbackRequest samplePe noFaults (Except.error "x") "/callback"
        "STATETOKEN123456" 0 sampleSvc []
        ⟨"/callback", none, some "WRONG", some "access_denied"⟩).resolution
      = some (false, "Authorization failed: access_denied") ∧
    (some "WRONG" : Option String) ≠ some "STATETOKEN123456" := by decide

/-- C5 (amended): for every inbound request on the callback path whose
error parameter is absent or empty and whose state differs from the
issued state, the pending authorization resolves with success false and
message 'State mismatch', the listener is closed, and no token exchange
is made (state and filesystem untouched). -/
theorem C5_theorem : ∀ (pe : ProcEnv) (faults : IoFaults)
    (exchangeRes : Except String (String × String)) (cbPath issued : String)
    (now : Int) (st : SvcState) (fs : Fs) (req : CallbackRequest),
    req.path = cbPath →
    truthyParam req.err = false →
    req.state ≠ some issued →
    handleCallbackRequest pe faults exchangeRes cbPath issued now st fs req
      = ⟨some (false, "State mismatch"), true, false, st, fs⟩ := by
  intro pe faults exchangeRes cbPath issued now st fs req hpath herr hstate
  unfold handleCallbackRequest
  simp [hpath, herr, hstate]

/-- C5 witness: the amended claim at a concrete mismatched-state request
with no error parameter. -/
theorem C5_witness :
    handleCallbackRequest samplePe noFaults (Except.error "x") "/callback"
        "STATETOKEN123456" 0 sampleSvc [] ⟨"/callback", none, some "WRONG", none⟩
      = ⟨some (false, "State mismatch"), true, false, sampleSvc, []⟩ :=
  C5_theorem samplePe noFaults (Except.error "x") "/callback" "STATETOKEN123456"
    0 sampleSvc [] ⟨"/callback", none, some "WRONG", none⟩ rfl (by decide) (by decide)

theorem gen_succ (randIdx : Nat → Nat) (n : Nat) :
    generateRandomString randIdx (n + 1)
      = generateRandomString randIdx n ++ charAt possible (randIdx n) := by
  unfold generateRandomString
  rw [show n + 1 = Nat.succ n from rfl, List.range_succ, List.foldl_append]
  rfl

theorem charAt_len (k : Nat) (h : k < 62) : (charAt possible k).length = 1 := by
  unfold charAt
  cases hg : possible.toList.get? k with
  | none =>
    have h1 := List.get?_eq_none.mp hg
    have h2 : possible.toList.length = 62 := rfl
    omega
  | some c => rfl

theorem charAt_mem (k : Nat) (c : Char) (h : c ∈ (charAt possible k).data) :
    c ∈ possible.toList := by
  unfold charAt at h
  cases hg : possible.toList.get? k with
  | none =>
    rw [hg] at h
    cases h
  | some c' =>
    rw [hg] at h
    have hc : c = c' := by
      cases h with
      | head => rfl
      | tail _ h2 => cases h2
    subst hc
    exact List.get?_mem hg

theorem gen_length (randIdx : Nat → Nat) (n : Nat) (h : ∀ i, randIdx i < 62) :
    (generateRandomString randIdx n).length = n := by
  induction n with
  | zero => rfl
  | succ m ih =>
    rw [gen_succ, String.length_append, ih, charAt_len _ (h m)]

theorem gen_mem (randIdx : Nat → Nat) (n : Nat) (c : Char)
    (h : c ∈ (generateRandomString randIdx n).data) : c ∈ possible.toList := by
  induction n with
  | zero => cases h
  | succ m ih =>
    rw [gen_succ, String.data_append] at h
    rcases List.mem_append.mp h with h1 | h2
    · exact ih h1
    · exact charAt_mem _ _ h2

theorem possible_alnum : ∀ c ∈ possible.toList, c.isAlphanum = true := by decide

/-- C8: with a configured (non-empty) redirect URI, getAuthorizationUrl
returns a state token that is a 16-character alphanumeric string and an
authorization URL requesting exactly the nine fixed scopes; with the
redirect URI absent or empty, it throws instead.  The hypothesis on
randIdx records that Math.floor(Math.random() * 62) always lies below
62. -/
theorem C8_theorem : ∀ (randIdx : Nat → Nat) (r : String),
    (∀ i, randIdx i < 62) → r ≠ "" →
    (∃ (url : AuthorizeURL) (stateTok : String),
      getAuthorizationUrl randIdx (some r) = .ok (url, stateTok) ∧
      stateTok.length = 16 ∧
      (∀ c ∈ stateTok.data, c.isAlphanum = true) ∧
      url.scopes = ["user-read-playback-state", "user-modify-playback-state",
        "user-read-currently-playing", "streaming", "playlist-read-private",
        "playlist-modify-private", "playlist-modify-public", "user-read-private",
        "user-top-read"]) ∧
    (∃ e, getAuthorizationUrl randIdx none = .error e) ∧
    (∃ e, getAuthorizationUrl randIdx (some "") = .error e) := by
  intro randIdx r hb hr
  have heq : getAuthorizationUrl randIdx (some r)
      = .ok ({ scopes := authScopes, state := generateRandomString randIdx 16 },
             generateRandomString randIdx 16) := by
    simp [getAuthorizationUrl, hr]
  exact ⟨⟨_, _, heq, gen_length randIdx 16 hb,
      fun c hc => possible_alnum c (gen_mem randIdx 16 c hc), rfl⟩,
    ⟨_, rfl⟩, ⟨_, rfl⟩⟩

/-- C8 witness: a concrete random source and redirect URI produce a
16-character alphanumeric state and the nine fixed scopes; no redirect
URI fails. -/
theorem C8_witness :
    (∃ (url : AuthorizeURL) (stateTok : String),
      getAuthorizationUrl (fun _ => 0) (some "https://localhost:8888/callback")
        = .ok (url, stateTok) ∧
      stateTok.length = 16 ∧
      (∀ c ∈ stateTok.data, c.isAlphanum = true) ∧
      url.scopes = ["user-read-playback-state", "user-modify-playback-state",
        "user-read-currently-playing", "streaming", "playlist-read-private",
        "playlist-modify-private", "playlist-modify-public", "user-read-private",
        "user-top-read"]) ∧
    (∃ e, getAuthorizationUrl (fun _ => 0) none = .error e) ∧
    (∃ e, getAuthorizationUrl (fun _ => 0) (some "") = .error e) :=
  C8_theorem (fun _ => 0) "https://localhost:8888/callback"
    (fun _ => Nat.succ_pos 61) (by decide)
